import Mathlib

/-!
Shallow embedding of `src/scripts/kp-scraper.py` (the KP EOS calculator
scraper, class `KPScraper`), together with theorems settling the
specification claims about its session-token handling, mode-switch
protocol, incidence lookup and AJAX-response parsing.

Response bodies and extracted tokens are modelled as `List Char`; the
`re.search` calls of the Python source are modelled by explicit
left-to-right scans with the same match semantics (first position at
which the whole pattern matches, greedy character classes).
-/

namespace KP

/-- The three hidden session tokens held by `KPScraper` (`self.viewstate`,
`self.viewstate_generator`, `self.event_validation`), each `None` until
assigned, exactly as in `KPScraper.__init__`. -/
structure SessionState where
  viewstate : Option (List Char)
  viewstate_generator : Option (List Char)
  event_validation : Option (List Char)
deriving DecidableEq, Repr

/-- The state of the three tokens right after `KPScraper.__init__`. -/
def initialState : SessionState := ⟨none, none, none⟩

/-- Outcome of one HTTP POST as seen by the scraper: either a successful
response body, or a raised exception (`requests` error / non-2xx status
via `raise_for_status`) carrying its description `desc`.  `body` on the
`err` constructor is the response text of a non-success response (empty
for connection errors / timeouts); the Python exception handlers never
read it. -/
inductive Transport where
  | ok (body : List Char)
  | err (desc : List Char) (body : List Char)
deriving DecidableEq, Repr

/-- `hasPrefixC p l` : `p` is a literal prefix of `l`. -/
def hasPrefixC : List Char → List Char → Bool
  | [], _ => true
  | _ :: _, [] => false
  | p :: ps, c :: cs => p == c && hasPrefixC ps cs

/-- Strip the literal `p` from the front of `l`, or fail. -/
def dropPrefixC : List Char → List Char → Option (List Char)
  | [], l => some l
  | _ :: _, [] => none
  | p :: ps, c :: cs => if p == c then dropPrefixC ps cs else none

/-- `containsSub p l` : `p` occurs in `l` as a contiguous substring;
models Python's `p in l` on strings. -/
def containsSub (p : List Char) : List Char → Bool
  | [] => hasPrefixC p []
  | c :: cs => hasPrefixC p (c :: cs) || containsSub p cs

/-- One match attempt, at the current position, of the token pattern
`marker([^|]+)\|` (e.g. `\|__VIEWSTATE\|([^|]+)\|` with
`marker = "|__VIEWSTATE|"`): the literal marker, then a non-empty run of
non-pipe characters, then a pipe.  Returns the capture. -/
def matchTokenAt (marker text : List Char) : Option (List Char) :=
  match dropPrefixC marker text with
  | none => none
  | some rest =>
    let cap := rest.takeWhile (fun c => c ≠ '|')
    let rest2 := rest.dropWhile (fun c => c ≠ '|')
    if cap.isEmpty || rest2.isEmpty then none else some cap

/-- `re.search` for the token pattern: try each position left to right. -/
def searchToken (marker : List Char) : List Char → Option (List Char)
  | [] => none
  | c :: cs =>
    match matchTokenAt marker (c :: cs) with
    | some cap => some cap
    | none => searchToken marker cs

/-- Marker of the primary state blob: the regex `\|__VIEWSTATE\|([^|]+)\|`
of `select_model` and `_parse_ajax_response`. -/
def vsMarker : List Char := "|__VIEWSTATE|".toList

/-- Marker of the validation token: the regex
`\|__EVENTVALIDATION\|([^|]+)\|` of `select_model` and
`_parse_ajax_response`. -/
def evMarker : List Char := "|__EVENTVALIDATION|".toList

/-- `if m: tok = m.group(1)` — adopt the found value, else keep the old. -/
def updToken (old found : Option (List Char)) : Option (List Char) :=
  match found with
  | some v => some v
  | none => old

/-- The session-token update both `select_model` (lines 218–225) and
`_parse_ajax_response` (lines 369–376) perform on a response body: the
`__VIEWSTATE` and `__EVENTVALIDATION` captures replace the stored tokens
when found; `viewstate_generator` is never searched for. -/
def refreshState (s : SessionState) (body : List Char) : SessionState :=
  ⟨updToken s.viewstate (searchToken vsMarker body),
   s.viewstate_generator,
   updToken s.event_validation (searchToken evMarker body)⟩

/-- Characters admitted by the result-capture class `[0-9.]`. -/
def isNumChar (c : Char) : Bool := c.isDigit || c == '.'

/-- One match attempt of a result pattern `ident[^>]*>([0-9.]+)<`
(e.g. `lblEOS[^>]*>([0-9.]+)<`): the literal identifier, anything up to
the first `>`, then a non-empty run of `[0-9.]` immediately closed by
`<`. -/
def matchResultAt (ident text : List Char) : Option (List Char) :=
  match dropPrefixC ident text with
  | none => none
  | some rest =>
    match rest.dropWhile (fun c => c ≠ '>') with
    | [] => none
    | _ :: afterGt =>
      if (afterGt.takeWhile isNumChar).isEmpty then none
      else
        match afterGt.dropWhile isNumChar with
        | '<' :: _ => some (afterGt.takeWhile isNumChar)
        | _ => none

/-- `re.search` for a result pattern: try each position left to right. -/
def searchResult (ident : List Char) : List Char → Option (List Char)
  | [] => none
  | c :: cs =>
    match matchResultAt ident (c :: cs) with
    | some cap => some cap
    | none => searchResult ident cs

/-- Python's `float(cap)` succeeds on a string drawn from `[0-9.]+` iff it
has at most one dot and at least one digit; the source wraps the
conversion in `try … except ValueError: pass`. -/
def pythonFloatOk (l : List Char) : Bool :=
  (l.filter (fun c => c == '.')).length ≤ 1 && l.any Char.isDigit

/-- `searchResult` gated by the `float()` conversion: the numeric text
stored for a result field (the source stores `float(cap)`; we keep the
captured digits, which determine it). -/
def parseField (ident body : List Char) : Option (List Char) :=
  match searchResult ident body with
  | none => none
  | some cap => if pythonFloatOk cap then some cap else none

/-- Identifier of the risk-at-birth result: regex `lblEOS[^>]*>([0-9.]+)<`. -/
def eosIdent : List Char := "lblEOS".toList

/-- Identifier of the well-appearing result: regex
`lblWellAppearing"[^>]*>([0-9.]+)<`. -/
def wellIdent : List Char := "lblWellAppearing\"".toList

/-- Identifier of the equivocal result: regex
`lblEquivocal"[^>]*>([0-9.]+)<`. -/
def equiIdent : List Char := "lblEquivocal\"".toList

/-- Identifier of the clinical-illness result: regex
`lblClinical"[^>]*>([0-9.]+)<`. -/
def clinIdent : List Char := "lblClinical\"".toList

/-- Literal substring the guard `'ErrorMessage' in response_text` tests. -/
def errMsgMarker : List Char := "ErrorMessage".toList

/-- Literal substring the guard `'display:none' not in response_text`
tests. -/
def hiddenMarker : List Char := "display:none".toList

/-- Literal prefix of the error regex `class="ErrorMessage"[^>]*>([^<]+)`. -/
def errClassIdent : List Char := "class=\"ErrorMessage\"".toList

/-- One match attempt of the error pattern: the literal class attribute,
anything up to the first `>`, then a non-empty run of non-`<`
characters (the capture). -/
def matchErrAt (text : List Char) : Option (List Char) :=
  match dropPrefixC errClassIdent text with
  | none => none
  | some rest =>
    match rest.dropWhile (fun c => c ≠ '>') with
    | [] => none
    | _ :: afterGt =>
      let cap := afterGt.takeWhile (fun c => c ≠ '<')
      if cap.isEmpty then none else some cap

/-- `re.search` for the error pattern. -/
def searchErr : List Char → Option (List Char)
  | [] => none
  | c :: cs =>
    match matchErrAt (c :: cs) with
    | some cap => some cap
    | none => searchErr cs

/-- Python's `str.strip()` restricted to the whitespace characters Lean's
`Char.isWhitespace` recognises (the responses are ASCII). -/
def trimChars (l : List Char) : List Char :=
  ((l.dropWhile Char.isWhitespace).reverse.dropWhile Char.isWhitespace).reverse

/-- The `debug_info` computation of `_parse_ajax_response` (lines
379–383): non-empty only when `'ErrorMessage'` occurs in the response,
`'display:none'` occurs nowhere in it, and the error regex captures
non-whitespace text. -/
def diagnosticText (body : List Char) : List Char :=
  if containsSub errMsgMarker body && ! containsSub hiddenMarker body then
    match searchErr body with
    | some cap => trimChars cap
    | none => []
  else []

/-- The five-tuple returned by `_parse_ajax_response` and
`submit_calculation`: four optional numeric results plus the diagnostic
text.  A result field is `none` exactly when the source leaves the
corresponding local variable `None`. -/
structure ExchangeResult where
  risk_birth : Option (List Char)
  well_appearing : Option (List Char)
  equivocal : Option (List Char)
  clinical_illness : Option (List Char)
  debug_info : List Char
deriving DecidableEq, Repr

/-- `KPScraper._parse_ajax_response`: extract the four result fields, the
diagnostic text, and refresh the viewstate / event-validation tokens
from the same body (lines 325–384). -/
def parse_ajax_response (s : SessionState) (body : List Char) :
    ExchangeResult × SessionState :=
  (⟨parseField eosIdent body, parseField wellIdent body,
    parseField equiIdent body, parseField clinIdent body,
    diagnosticText body⟩,
   refreshState s body)

/-- The module-level table `INCIDENCE_2017` (lines 29–42). -/
def INCIDENCE_2017 : List (String × String) :=
  [("0.1", "38.952265"), ("0.2", "39.646367"), ("0.3", "40.05280"),
   ("0.4", "40.34150"), ("0.5", "40.56560"), ("0.6", "40.74890"),
   ("0.7", "40.903919"), ("0.8", "41.0384"), ("0.9", "41.1571"),
   ("1.0", "41.263432"), ("2.0", "41.965852"), ("4.0", "42.676976")]

/-- The module-level table `INCIDENCE_2024` (lines 45–58). -/
def INCIDENCE_2024 : List (String × String) :=
  [("0.1", "55.2"), ("0.2", "55.9"), ("0.3", "56.3"),
   ("0.4", "56.6"), ("0.5", "57.9"), ("0.6", "57.0"),
   ("0.7", "57.2"), ("0.8", "57.3"), ("0.9", "57.5"),
   ("1.0", "57.6"), ("2.0", "58.3"), ("4.0", "59.0")]

/-- Python `dict.get(k)` on one of the incidence tables (keys are
distinct, so association-list lookup agrees with the dict). -/
def lookupIncidence (t : List (String × String)) (k : String) : Option String :=
  (t.find? (fun p => p.1 == k)).map Prod.snd

/-- Lines 263–267 of `submit_calculation`: the incidence wire value is
looked up in the table selected by the sub-mode, with the per-table
fallbacks `"57.9"` and `"40.56560"`; it never raises. -/
def incidence_value (model incidence : String) : String :=
  if model == "2024" then (lookupIncidence INCIDENCE_2024 incidence).getD "57.9"
  else (lookupIncidence INCIDENCE_2017 incidence).getD "40.56560"

/-- One entry of `TEST_CASES` as consumed by `submit_calculation`
(tuple `(Model, GA_weeks, GA_days, Temp_F, ROM_hours, GBS, Antibiotics,
Incidence)`).  The float-valued temperature is only ever formatted into
the wire encoding and affects none of the verified behaviour, so it is
not carried here. -/
structure Case where
  model : String
  ga_w : Int
  ga_d : Int
  rom : Int
  gbs : String
  abx : String
  incidence : String
deriving DecidableEq, Repr

/-- `KPScraper.select_model` (lines 191–230): POST the model-selection
postback; on success update viewstate / event-validation from the
response via the two regexes and return `True`; on exception return
`False` with the tokens untouched. -/
def select_model (s : SessionState) (t : Transport) : Bool × SessionState :=
  match t with
  | .err _ _ => (false, s)
  | .ok body => (true, refreshState s body)

/-- The compute POST of `submit_calculation` (lines 314–323): on success
parse the AJAX response (which also refreshes the tokens); on exception
return the all-`None` result carrying `str(e)` with tokens untouched. -/
def computeExchange (s : SessionState) (t : Transport) :
    ExchangeResult × SessionState :=
  match t with
  | .err desc _ => (⟨none, none, none, none, desc⟩, s)
  | .ok body => parse_ajax_response s body

/-- `KPScraper.submit_calculation` (lines 232–323) at the level of its
exchanges: for a 2024 case first run `select_model` (aborting with the
literal failure message if it fails), then run the compute exchange.
`switchT` / `computeT` are the transport outcomes of the two POSTs. -/
def submit_calculation (s : SessionState) (c : Case)
    (switchT computeT : Transport) : ExchangeResult × SessionState :=
  if c.model == "2024" then
    match select_model s switchT with
    | (false, s1) => (⟨none, none, none, none,
        "Failed to select 2024 model".toList⟩, s1)
    | (true, s1) => computeExchange s1 computeT
  else computeExchange s computeT

/-- One wire exchange issued by `submit_calculation`, in order. -/
inductive Wire where
  | modeSwitch (model : String)
  | compute (c : Case)
deriving DecidableEq, Repr

/-- The sequence of POSTs `submit_calculation` issues for a case (lines
236–240 and 315): a 2024 case always begins with the model-selection
postback, and the compute POST follows only if it succeeded; any other
case issues the compute POST alone. -/
def submitTrace (c : Case) (switchT : Transport) : List Wire :=
  if c.model == "2024" then
    match switchT with
    | .err _ _ => [Wire.modeSwitch "2024"]
    | .ok _ => [Wire.modeSwitch "2024", Wire.compute c]
  else [Wire.compute c]

/-- Number of mode-switch exchanges in a trace. -/
def countModeSwitches (ws : List Wire) : Nat :=
  (ws.filter (fun w => match w with
    | Wire.modeSwitch _ => true
    | Wire.compute _ => false)).length

/-- Modelled from the spec (claim C2): the number of mode-switch
exchanges the spec mandates for one ParameterSet — zero when the
requested sub-mode equals the session's currently-selected sub-mode,
one when it differs. -/
def specModeSwitchCount (currentMode : String) (c : Case) : Nat :=
  if c.model == currentMode then 0 else 1

/-- The three hidden inputs of the landing page as `get_initial_page`
sees them after the `soup.find` calls: each either absent (`None`) or
present with its `value` attribute.  (BeautifulSoup's HTML parsing
itself is modelled by its outcome.) -/
structure LandingFields where
  vs : Option (List Char)
  vsg : Option (List Char)
  ev : Option (List Char)
deriving DecidableEq, Repr

/-- Outcome of the initial GET of `get_initial_page`: either an
exception (fetch failure), or a parsed landing page. -/
inductive InitialFetch where
  | failure (msg : List Char)
  | success (fields : LandingFields)
deriving DecidableEq, Repr

/-- `KPScraper.get_initial_page` (lines 163–189): on an exception return
`False` leaving the tokens untouched; on a fetched page assign each of
the three tokens the field's value when present and `None` when absent,
and return `True`. -/
def get_initial_page (s : SessionState) (o : InitialFetch) :
    Bool × SessionState :=
  match o with
  | .failure _ => (false, s)
  | .success f => (true, ⟨f.vs, f.vsg, f.ev⟩)

/-- One exchange of a run after initialization, with its transport
outcome: either a `select_model` postback or a compute postback. -/
inductive ExchangeStep where
  | modeSwitchStep (t : Transport)
  | computeStep (t : Transport)
deriving Repr

/-- Effect of one exchange on the session tokens. -/
def applyStep (s : SessionState) : ExchangeStep → SessionState
  | .modeSwitchStep t => (select_model s t).snd
  | .computeStep t => (computeExchange s t).snd

/-- A landing-page fetch whose markup lacks the `__EVENTVALIDATION`
hidden field (validation token) but carries the other two. -/
def landingNoValidation : InitialFetch :=
  InitialFetch.success ⟨some "VSTATE".toList, some "GEN".toList, none⟩

/-- The first 2024 entry of `TEST_CASES` (line 66), temperature elided. -/
def case2024Base : Case := ⟨"2024", 40, 0, 0, "Negative", "none", "0.5"⟩

/-- The first 2017 entry of `TEST_CASES` (line 65), temperature elided. -/
def case2017Base : Case := ⟨"2017", 40, 0, 0, "Negative", "none", "0.5"⟩

/-- A token state holding concrete values for all three tokens. -/
def heldTokens : SessionState :=
  ⟨some "OLD".toList, some "GEN".toList, some "EV0".toList⟩

/-- A non-success response body that carries a fresh primary token. -/
def errBodyWithToken : List Char := "|__VIEWSTATE|NEW|".toList

/-- A response containing the risk-at-birth result element with empty
text (`<span id="lblEOS" class="x"></span>`). -/
def emptyEosBody : List Char := "<span id=\"lblEOS\" class=\"x\"></span>".toList

end KP

namespace KP

/-- Helper: the value `dict.get(k, d)` produces is either one of the
table's values or the default. -/
theorem lookup_value_cases (t : List (String × String)) (k d : String) :
    (lookupIncidence t k).getD d ∈ t.map Prod.snd
    ∨ (lookupIncidence t k).getD d = d := by
  cases h : t.find? (fun p => p.1 == k) with
  | none => exact Or.inr (by simp [lookupIncidence, h])
  | some p =>
    refine Or.inl ?_
    have hm : p ∈ t := List.mem_of_find?_eq_some h
    have : (lookupIncidence t k).getD d = p.2 := by simp [lookupIncidence, h]
    rw [this]
    exact List.mem_map.mpr ⟨p, hm, rfl⟩

/-- Helper: a successful single-position result match captures a
non-empty all-numeric run. -/
theorem matchResultAt_props {ident text cap : List Char}
    (h : matchResultAt ident text = some cap) :
    cap ≠ [] ∧ cap.all isNumChar = true := by
  unfold matchResultAt at h
  split at h
  · exact absurd h (by simp)
  · split at h
    · exact absurd h (by simp)
    · split at h
      · exact absurd h (by simp)
      · rename_i hne
        split at h
        · cases h
          refine ⟨?_, ?_⟩
          · intro hnil
            rw [hnil] at hne
            simp at hne
          · exact List.all_eq_true.mpr fun c hc => List.mem_takeWhile_imp hc
        · exact absurd h (by simp)

/-- Helper: a successful result search captures a non-empty all-numeric
run. -/
theorem searchResult_props {ident : List Char} :
    ∀ {body cap : List Char}, searchResult ident body = some cap →
      cap ≠ [] ∧ cap.all isNumChar = true := by
  intro body
  induction body with
  | nil => intro cap h; exact absurd h (by simp [searchResult])
  | cons c cs ih =>
    intro cap h
    unfold searchResult at h
    cases hm : matchResultAt ident (c :: cs) with
    | some cap2 => rw [hm] at h; cases h; exact matchResultAt_props hm
    | none => rw [hm] at h; exact ih h

/-- Helper: a stored result value is a non-empty all-numeric run that
passes the `float()` conversion. -/
theorem parseField_props {ident body cap : List Char}
    (h : parseField ident body = some cap) :
    cap ≠ [] ∧ cap.all isNumChar = true ∧ pythonFloatOk cap = true := by
  unfold parseField at h
  cases hs : searchResult ident body with
  | none => rw [hs] at h; exact absurd h (by simp)
  | some cap2 =>
    rw [hs] at h
    have h2 : (if pythonFloatOk cap2 = true then some cap2 else none) = some cap := h
    by_cases hf : pythonFloatOk cap2 = true
    · rw [if_pos hf] at h2
      cases h2
      exact ⟨(searchResult_props hs).1, (searchResult_props hs).2, hf⟩
    · rw [if_neg hf] at h2
      exact absurd h2 (by simp)

/-- Claim C1, counterexample: on a fetched landing page whose markup
lacks the validation-token field (`__EVENTVALIDATION`),
`get_initial_page` reports success (`True`) and leaves the validation
token `None`, rather than reporting failure as the claim states. -/
theorem c1_missing_validation_reports_success :
    (get_initial_page initialState landingNoValidation).fst = true
    ∧ (get_initial_page initialState landingNoValidation).snd.event_validation
      = none :=
  ⟨rfl, rfl⟩

/-- Claim C1, amended: `get_initial_page` reports failure exactly when
the fetch raises (leaving the tokens untouched); on any fetched landing
page — including one with hidden fields absent — it stores each field's
value (or `None` for an absent field) and reports success. -/
theorem c1_failure_only_on_fetch_error (s : SessionState)
    (f : LandingFields) (m : List Char) :
    get_initial_page s (InitialFetch.failure m) = (false, s)
    ∧ get_initial_page s (InitialFetch.success f)
      = (true, (⟨f.vs, f.vsg, f.ev⟩ : SessionState)) :=
  ⟨rfl, rfl⟩

/-- Claim C2, counterexample: with the session's currently-selected
sub-mode already 2024 (as after any completed 2024 case), a further 2024
ParameterSet still issues a mode-switch exchange — the spec mandates
zero — while a 2017 ParameterSet issues none although the sub-modes
differ, where the spec mandates one. -/
theorem c2_switch_regardless_of_current_mode :
    specModeSwitchCount "2024" case2024Base = 0
    ∧ countModeSwitches (submitTrace case2024Base (Transport.ok [])) = 1
    ∧ specModeSwitchCount "2024" case2017Base = 1
    ∧ countModeSwitches (submitTrace case2017Base (Transport.ok [])) = 0 :=
  ⟨rfl, rfl, rfl, rfl⟩

/-- Claim C2, amended: a mode-switch exchange is issued if and only if
the requested sub-mode is 2024 — no currently-active sub-mode is
tracked, recorded, or consulted — and when the switch transport succeeds
(or no switch is needed) exactly one compute exchange follows. -/
theorem c2_switch_iff_requested_2024 (c : Case) (t : Transport)
    (body : List Char) :
    countModeSwitches (submitTrace c t)
      = (if c.model == "2024" then 1 else 0)
    ∧ submitTrace c (Transport.ok body)
      = (if c.model == "2024" then [Wire.modeSwitch "2024"] else [])
        ++ [Wire.compute c] := by
  constructor
  · by_cases h : c.model == "2024"
    · cases t <;> simp [submitTrace, h, countModeSwitches]
    · simp [submitTrace, h, countModeSwitches,
        show (c.model == "2024") = false from by simpa using h]
  · by_cases h : c.model == "2024"
    · simp [submitTrace, h]
    · simp [submitTrace, show (c.model == "2024") = false from by simpa using h]

/-- Claim C3: the incidence wire value is keyed by (sub-mode, category)
over two disjoint tables — for category `"0.5"` the 2017 sub-mode
resolves to `"40.56560"` and the 2024 sub-mode to `"57.9"`, and no
category at all resolves to the same wire value under both sub-modes. -/
theorem c3_incidence_tables_disjoint :
    incidence_value "2017" "0.5" = "40.56560"
    ∧ incidence_value "2024" "0.5" = "57.9"
    ∧ ∀ cat : String, incidence_value "2017" cat ≠ incidence_value "2024" cat := by
  refine ⟨rfl, rfl, fun cat => ?_⟩
  have h17 := lookup_value_cases INCIDENCE_2017 cat "40.56560"
  have h24 := lookup_value_cases INCIDENCE_2024 cat "57.9"
  have hd : ∀ v1 ∈ ("40.56560" :: INCIDENCE_2017.map Prod.snd),
      ∀ v2 ∈ ("57.9" :: INCIDENCE_2024.map Prod.snd), v1 ≠ v2 := by decide
  have e17 : incidence_value "2017" cat
      = (lookupIncidence INCIDENCE_2017 cat).getD "40.56560" := rfl
  have e24 : incidence_value "2024" cat
      = (lookupIncidence INCIDENCE_2024 cat).getD "57.9" := rfl
  rw [e17, e24]
  refine hd _ ?_ _ ?_
  · cases h17 with
    | inl hm => exact List.mem_cons_of_mem _ hm
    | inr he => rw [he]; exact List.mem_cons_self _ _
  · cases h24 with
    | inl hm => exact List.mem_cons_of_mem _ hm
    | inr he => rw [he]; exact List.mem_cons_self _ _

/-- Claim C4: when the compute POST raises at the transport layer
(non-success status, connection error, or timeout), the exchange returns
an ExchangeResult with all four result values absent and the diagnostic
text set to the error's description, both at the compute exchange itself
and through `submit_calculation` — nothing raises past the per-item
boundary (both functions are total). -/
theorem c4_transport_failure_contained (s : SessionState) (c : Case)
    (desc ebody swbody : List Char) :
    (computeExchange s (Transport.err desc ebody)).fst
      = ⟨none, none, none, none, desc⟩
    ∧ (submit_calculation s c (Transport.ok swbody) (Transport.err desc ebody)).fst
      = ⟨none, none, none, none, desc⟩ := by
  refine ⟨rfl, ?_⟩
  unfold submit_calculation
  by_cases h : c.model == "2024"
  · simp [h, select_model, computeExchange]
  · simp [show (c.model == "2024") = false from by simpa using h, computeExchange]

/-- Claim C5, counterexample: when the compute exchange fails at the
transport layer with a response body carrying a fresh primary token, no
session-state refresh is performed — the stored token keeps its old
value instead of the refreshed one the claim mandates. -/
theorem c5_no_refresh_on_transport_error :
    (computeExchange heldTokens
        (Transport.err "500 Server Error".toList errBodyWithToken)).snd
      = heldTokens
    ∧ (refreshState heldTokens errBodyWithToken).viewstate = some "NEW".toList
    ∧ (computeExchange heldTokens
        (Transport.err "500 Server Error".toList errBodyWithToken)).snd
      ≠ refreshState heldTokens errBodyWithToken := by
  refine ⟨rfl, by decide, by decide⟩

/-- Claim C5, amended: after every compute exchange whose transport
succeeds, the session-token refresh is performed unconditionally (even
when no result value parses), also when a 2024 mode switch preceded it;
when the compute transport fails, no refresh occurs and the tokens are
left exactly unchanged. -/
theorem c5_refresh_after_transported_exchange (s : SessionState) (c : Case)
    (body desc ebody swbody : List Char) :
    (computeExchange s (Transport.ok body)).snd = refreshState s body
    ∧ (computeExchange s (Transport.err desc ebody)).snd = s
    ∧ (submit_calculation s c (Transport.ok swbody) (Transport.ok body)).snd
      = refreshState (if c.model == "2024" then refreshState s swbody else s)
          body := by
  refine ⟨rfl, rfl, ?_⟩
  unfold submit_calculation
  by_cases h : c.model == "2024"
  · simp [h, select_model, computeExchange, parse_ajax_response]
  · simp [show (c.model == "2024") = false from by simpa using h,
      computeExchange, parse_ajax_response]

/-- Claim C6: for every exchange response body, a session token whose
field-name marker produces no match in the delta frame keeps its
previous value through the refresh: the primary token and validation
token are retained when unmatched, and the generator tag is always
retained. -/
theorem c6_unmatched_token_retained (s : SessionState) (body : List Char) :
    (searchToken vsMarker body = none →
      (refreshState s body).viewstate = s.viewstate)
    ∧ (searchToken evMarker body = none →
      (refreshState s body).event_validation = s.event_validation)
    ∧ (refreshState s body).viewstate_generator = s.viewstate_generator := by
  refine ⟨fun h => ?_, fun h => ?_, rfl⟩
  · simp [refreshState, updToken, h]
  · simp [refreshState, updToken, h]

/-- Witness for C6 at a concrete body containing neither token marker:
all three stored tokens survive the refresh unchanged. -/
theorem c6_unmatched_token_retained_witness :
    (refreshState heldTokens ['x']).viewstate = heldTokens.viewstate
    ∧ (refreshState heldTokens ['x']).event_validation
      = heldTokens.event_validation
    ∧ (refreshState heldTokens ['x']).viewstate_generator
      = heldTokens.viewstate_generator :=
  ⟨(c6_unmatched_token_retained heldTokens ['x']).1 (by decide),
   (c6_unmatched_token_retained heldTokens ['x']).2.1 (by decide),
   (c6_unmatched_token_retained heldTokens ['x']).2.2⟩

/-- Claim C7: a stored result value only ever arises from a non-empty
all-`[0-9.]` element text accepted by the `float()` conversion — so an
element that is present with empty text can never produce a value, and
in particular the response `<span id="lblEOS" class="x"></span>` yields
an absent risk-at-birth value, not zero. -/
theorem c7_empty_text_is_absent :
    (∀ ident body cap : List Char, parseField ident body = some cap →
       cap ≠ [] ∧ cap.all isNumChar = true ∧ pythonFloatOk cap = true)
    ∧ (parse_ajax_response initialState emptyEosBody).fst.risk_birth = none :=
  ⟨fun _ _ _ h => parseField_props h, by decide⟩

/-- Witness for C7 at a concrete response carrying `lblEOS>42.5<`: the
produced value is the non-empty syntactically valid number `42.5`. -/
theorem c7_empty_text_is_absent_witness :
    "42.5".toList ≠ ([] : List Char)
    ∧ "42.5".toList.all isNumChar = true
    ∧ pythonFloatOk "42.5".toList = true :=
  c7_empty_text_is_absent.1 eosIdent "lblEOS>42.5<".toList "42.5".toList
    (by decide)

/-- Claim C8: the parser produces non-empty diagnostic text only if the
error marker occurs in the response, `display:none` occurs nowhere in it
(in particular not on the error container itself), and the error element
captured non-whitespace text; a response whose error container is
present but marked hidden yields empty diagnostic text. -/
theorem c8_hidden_error_yields_no_diagnostic (body : List Char) :
    (diagnosticText body ≠ [] →
       containsSub errMsgMarker body = true
       ∧ containsSub hiddenMarker body = false
       ∧ ∃ cap, searchErr body = some cap
           ∧ trimChars cap = diagnosticText body)
    ∧ (containsSub errMsgMarker body = true →
       containsSub hiddenMarker body = true →
       diagnosticText body = []) := by
  constructor
  · intro hne
    by_cases hc : (containsSub errMsgMarker body
        && ! containsSub hiddenMarker body) = true
    · have hparts := Bool.and_eq_true_iff.mp hc
      have h1 : containsSub errMsgMarker body = true := hparts.1
      have h2 : containsSub hiddenMarker body = false := by
        have := hparts.2
        simpa using this
      refine ⟨h1, h2, ?_⟩
      cases hs : searchErr body with
      | none => exact absurd (by simp [diagnosticText, hc, hs]) hne
      | some cap => exact ⟨cap, rfl, by simp [diagnosticText, hc, hs]⟩
    · exact absurd (by simp [diagnosticText, hc]) hne
  · intro he hh
    have hc : (containsSub errMsgMarker body
        && ! containsSub hiddenMarker body) = false := by simp [he, hh]
    simp [diagnosticText, hc]

/-- Witness for C8 at a concrete response whose error container is
present but carries `display:none`: the diagnostic text is empty. -/
theorem c8_hidden_error_yields_no_diagnostic_witness :
    diagnosticText "class=\"ErrorMessage\" style=\"display:none\">oops<".toList
      = [] :=
  (c8_hidden_error_yields_no_diagnostic
    "class=\"ErrorMessage\" style=\"display:none\">oops<".toList).2
    (by decide) (by decide)

/-- Claim C9: for a category absent from both tables the lookup never
raises and the encoded adjustment falls back to the sub-mode's entry for
category `"0.5"` — `"57.9"` under 2024 and `"40.56560"` under 2017. -/
theorem c9_unknown_category_falls_back (cat : String)
    (h24 : lookupIncidence INCIDENCE_2024 cat = none)
    (h17 : lookupIncidence INCIDENCE_2017 cat = none) :
    incidence_value "2024" cat = "57.9"
    ∧ incidence_value "2017" cat = "40.56560"
    ∧ incidence_value "2024" cat = incidence_value "2024" "0.5"
    ∧ incidence_value "2017" cat = incidence_value "2017" "0.5" := by
  have e24 : incidence_value "2024" cat = "57.9" := by
    have : incidence_value "2024" cat
        = (lookupIncidence INCIDENCE_2024 cat).getD "57.9" := rfl
    rw [this, h24]
    rfl
  have e17 : incidence_value "2017" cat = "40.56560" := by
    have : incidence_value "2017" cat
        = (lookupIncidence INCIDENCE_2017 cat).getD "40.56560" := rfl
    rw [this, h17]
    rfl
  exact ⟨e24, e17, by rw [e24]; rfl, by rw [e17]; rfl⟩

/-- Witness for C9 at the concrete category `"9.9"`, a key of neither
table: both sub-modes fall back to their `"0.5"` entry. -/
theorem c9_unknown_category_falls_back_witness :
    incidence_value "2024" "9.9" = "57.9"
    ∧ incidence_value "2017" "9.9" = "40.56560"
    ∧ incidence_value "2024" "9.9" = incidence_value "2024" "0.5"
    ∧ incidence_value "2017" "9.9" = incidence_value "2017" "0.5" :=
  c9_unknown_category_falls_back "9.9" (by decide) (by decide)

/-- Claim C10: across every sequence of mode-switch and compute
exchanges after initialization, the state-generator tag keeps the value
initialization gave it — no exchange response is ever searched for it,
only the primary and validation tokens are refreshed. -/
theorem c10_generator_tag_never_refreshed (steps : List ExchangeStep)
    (s : SessionState) :
    (steps.foldl applyStep s).viewstate_generator = s.viewstate_generator := by
  induction steps generalizing s with
  | nil => rfl
  | cons e es ih =>
    have hstep : (applyStep s e).viewstate_generator = s.viewstate_generator := by
      cases e with
      | modeSwitchStep t => cases t <;> rfl
      | computeStep t => cases t <;> rfl
    calc (List.foldl applyStep s (e :: es)).viewstate_generator
        = (applyStep s e).viewstate_generator := ih (applyStep s e)
      _ = s.viewstate_generator := hstep

end KP
